import Mathlib

/-!
Verification of the Airbnb price-predictor form logic (`src/app.py`).

The development shallowly embeds:
* the static city → default-coordinates table (`city_coords`, app.py lines 9-25),
* the reactive session-state update block (app.py lines 49-57),
* the encoding maps and feature assembly (`room_type_map`, `city_map`,
  `input_dict`, `columns_order`, `input_df`; app.py lines 111-134),
* the top-5 feature-importance selection (`np.argsort(...)[::-1][:5]`,
  app.py lines 146-154), and
* the artifact loading / scaling / prediction pipeline (app.py lines 28-34
  and 137-140), whose external artifacts are modelled from the spec.

Coordinates and weights are represented as rationals, which represent the
decimal literals of the source exactly.
-/

/-- The 15 cities, in the order they appear as keys of `city_coords`
(Python dicts preserve insertion order). -/
inductive City where
  | Paris | Rome | Amsterdam | Berlin | Prague
  | Barcelona | Budapest | Vienna | Athens | Istanbul
  | Dublin | Oslo | Stockholm | Copenhagen | Brussels
deriving DecidableEq, Repr

open City

/-- `list(city_coords.keys())`: the ordered key list of the static table. -/
def cityList : List City :=
  [Paris, Rome, Amsterdam, Berlin, Prague,
   Barcelona, Budapest, Vienna, Athens, Istanbul,
   Dublin, Oslo, Stockholm, Copenhagen, Brussels]

/-- The static table `city_coords` (app.py lines 9-25): default
(latitude, longitude) per city. -/
def city_coords : City → ℚ × ℚ
  | Paris => (48.8566, 2.3522)
  | Rome => (41.9028, 12.4964)
  | Amsterdam => (52.3676, 4.9041)
  | Berlin => (52.5200, 13.4050)
  | Prague => (50.0755, 14.4378)
  | Barcelona => (41.3851, 2.1734)
  | Budapest => (47.4979, 19.0402)
  | Vienna => (48.2082, 16.3738)
  | Athens => (37.9838, 23.7275)
  | Istanbul => (41.0082, 28.9784)
  | Dublin => (53.3498, -6.2603)
  | Oslo => (59.9139, 10.7522)
  | Stockholm => (59.3293, 18.0686)
  | Copenhagen => (55.6761, 12.5683)
  | Brussels => (50.8503, 4.3517)

/-- The slice of `st.session_state` the reactive block touches: the keys
`latitude_input`, `longitude_input` and `last_city`.  `none` models a key
absent from the session state. -/
structure SessionState where
  latitude : Option ℚ
  longitude : Option ℚ
  last_city : Option City
deriving DecidableEq, Repr

/-- The auto-update block, app.py lines 49-57: if `latitude_input` or
`longitude_input` is absent, or `st.session_state.get("last_city", None)`
differs from the selected `city`, overwrite latitude/longitude with the
city's defaults and record `last_city = city`; otherwise do nothing.
(`get` with default `None` makes an absent `last_city` always differ from
`city`.) -/
def autoUpdate (city : City) (s : SessionState) : SessionState :=
  if s.latitude = none ∨ s.longitude = none ∨ s.last_city ≠ some city then
    { s with
      latitude := some (city_coords city).1
      longitude := some (city_coords city).2
      last_city := some city }
  else s

/-- A manual user edit of the latitude widget (key `latitude_input`):
the keyed widget writes the entered value into the session state. -/
def editLatitude (l : ℚ) (s : SessionState) : SessionState :=
  { s with latitude := some l }

theorem autoUpdate_pos (city : City) (s : SessionState)
    (h : s.latitude = none ∨ s.longitude = none ∨ s.last_city ≠ some city) :
    autoUpdate city s =
      { s with
        latitude := some (city_coords city).1
        longitude := some (city_coords city).2
        last_city := some city } := by
  unfold autoUpdate
  rw [if_pos h]

theorem autoUpdate_neg (city : City) (s : SessionState)
    (h1 : s.latitude ≠ none) (h2 : s.longitude ≠ none)
    (h3 : s.last_city = some city) :
    autoUpdate city s = s := by
  unfold autoUpdate
  rw [if_neg]
  push_neg
  exact ⟨h1, h2, h3⟩

theorem autoUpdate_last_city (city : City) (s : SessionState) :
    (autoUpdate city s).last_city = some city := by
  unfold autoUpdate
  split_ifs with h
  · rfl
  · push_neg at h
    exact h.2.2

theorem autoUpdate_latitude_ne_none (city : City) (s : SessionState) :
    (autoUpdate city s).latitude ≠ none := by
  unfold autoUpdate
  split_ifs with h
  · simp
  · push_neg at h
    exact h.1

theorem autoUpdate_longitude_ne_none (city : City) (s : SessionState) :
    (autoUpdate city s).longitude ≠ none := by
  unfold autoUpdate
  split_ifs with h
  · simp
  · push_neg at h
    exact h.2.1

/-- C1: whenever the latitude or longitude key is unset, or the remembered
`last_city` differs from the selected city (including when it is unset),
the reactive block sets latitude/longitude exactly to the selected city's
defaults from the static table and records `last_city = city`. -/
theorem claim1_auto_update_sets_defaults (s : SessionState) (c : City)
    (h : s.latitude = none ∨ s.longitude = none ∨ s.last_city ≠ some c) :
    autoUpdate c s =
      { s with
        latitude := some (city_coords c).1
        longitude := some (city_coords c).2
        last_city := some c } :=
  autoUpdate_pos c s h

/-- Witness for C1 at the empty session state and city Paris. -/
theorem claim1_auto_update_sets_defaults_witness :
    autoUpdate Paris ⟨none, none, none⟩ =
      ⟨some (city_coords Paris).1, some (city_coords Paris).2, some Paris⟩ :=
  claim1_auto_update_sets_defaults ⟨none, none, none⟩ Paris (Or.inl rfl)

/-- C2: (a) a render with an unchanged city and both coordinate keys set
leaves the session state unchanged (idempotence), and (b) selecting city
`c`, manually editing latitude to `l`, then re-rendering with the same
city yields latitude `l`, not the city's default. -/
theorem claim2_manual_edit_preserved (s : SessionState) (c : City) (l : ℚ) :
    (s.last_city = some c → s.latitude ≠ none → s.longitude ≠ none →
      autoUpdate c s = s) ∧
    (autoUpdate c (editLatitude l (autoUpdate c s))).latitude = some l := by
  constructor
  · intro h3 h1 h2
    exact autoUpdate_neg c s h1 h2 h3
  · have h3 : (editLatitude l (autoUpdate c s)).last_city = some c := by
      simp only [editLatitude]
      exact autoUpdate_last_city c s
    have h2 : (editLatitude l (autoUpdate c s)).longitude ≠ none := by
      simp only [editLatitude]
      exact autoUpdate_longitude_ne_none c s
    have h1 : (editLatitude l (autoUpdate c s)).latitude ≠ none := by
      simp [editLatitude]
    rw [autoUpdate_neg c _ h1 h2 h3]
    rfl

/-- Witness for C2 at a concrete session state, city Paris, latitude 50. -/
theorem claim2_manual_edit_preserved_witness :
    ((SessionState.mk (some 1) (some 2) (some Paris)).last_city = some Paris →
      (SessionState.mk (some 1) (some 2) (some Paris)).latitude ≠ none →
      (SessionState.mk (some 1) (some 2) (some Paris)).longitude ≠ none →
      autoUpdate Paris ⟨some 1, some 2, some Paris⟩ =
        ⟨some 1, some 2, some Paris⟩) ∧
    (autoUpdate Paris
      (editLatitude 50 (autoUpdate Paris ⟨some 1, some 2, some Paris⟩))).latitude =
      some 50 :=
  claim2_manual_edit_preserved ⟨some 1, some 2, some Paris⟩ Paris 50

/-- C6: selecting city `a`, manually editing latitude to `l`, selecting a
different city `b`, then reselecting `a`, ends with `a`'s default
coordinates: the manual edit is discarded on the round trip. -/
theorem claim6_reset_on_return (s : SessionState) (a b : City) (l : ℚ)
    (hab : a ≠ b) :
    (autoUpdate a (autoUpdate b (editLatitude l (autoUpdate a s)))).latitude =
      some (city_coords a).1 ∧
    (autoUpdate a (autoUpdate b (editLatitude l (autoUpdate a s)))).longitude =
      some (city_coords a).2 := by
  have h3 : (autoUpdate b (editLatitude l (autoUpdate a s))).last_city = some b :=
    autoUpdate_last_city b _
  have h4 : (autoUpdate b (editLatitude l (autoUpdate a s))).last_city ≠ some a := by
    rw [h3]
    intro h
    exact hab (Option.some_injective City h).symm
  rw [autoUpdate_pos a _ (Or.inr (Or.inr h4))]
  exact ⟨rfl, rfl⟩

/-- Witness for C6 with cities Paris and Rome and latitude edit 50. -/
theorem claim6_reset_on_return_witness :
    (autoUpdate Paris
      (autoUpdate Rome (editLatitude 50 (autoUpdate Paris ⟨none, none, none⟩)))).latitude =
      some (city_coords Paris).1 ∧
    (autoUpdate Paris
      (autoUpdate Rome (editLatitude 50 (autoUpdate Paris ⟨none, none, none⟩)))).longitude =
      some (city_coords Paris).2 :=
  claim6_reset_on_return ⟨none, none, none⟩ Paris Rome 50 (by decide)

/-- C9: after the reactive block runs for the selected city `c`, the
session state always has `last_city = c` and set latitude/longitude,
whichever branch was taken; consequently on a later render for city `cn`
the block's city-mismatch condition holds exactly when `cn` differs
from `c`. -/
theorem claim9_post_invariant (s : SessionState) (c : City) :
    (autoUpdate c s).last_city = some c ∧
    (autoUpdate c s).latitude ≠ none ∧
    (autoUpdate c s).longitude ≠ none ∧
    ∀ cn : City, ((autoUpdate c s).last_city ≠ some cn ↔ cn ≠ c) := by
  refine ⟨autoUpdate_last_city c s, autoUpdate_latitude_ne_none c s,
    autoUpdate_longitude_ne_none c s, ?_⟩
  intro cn
  rw [autoUpdate_last_city c s]
  constructor
  · intro h hc
    exact h (by rw [hc])
  · intro h hc
    exact h (Option.some_injective City hc).symm

/-- The three room-type labels of the selectbox (app.py lines 73-77). -/
inductive RoomType where
  | EntireHome | PrivateRoom | SharedRoom
deriving DecidableEq, Repr

open RoomType

/-- `room_type_map` (app.py line 111): label → 0-based index. -/
def room_type_map : RoomType → ℕ
  | EntireHome => 0
  | PrivateRoom => 1
  | SharedRoom => 2

/-- `city_map` (app.py line 112): the dict comprehension
`{c: i for i, c in enumerate(list(city_coords.keys()))}`, embedded as an
association list in enumeration order, looked up per city. -/
def city_map_assoc : List (City × ℕ) :=
  (cityList.enum).map (fun p => (p.2, p.1))

def city_map (c : City) : ℕ :=
  (city_map_assoc.lookup c).getD 0

/-- The resolved form state of one render: the widget values read at
app.py lines 42-108 (city, latitude, longitude, room type, and the six
bounded numeric inputs). -/
structure FormState where
  city : City
  latitude : ℚ
  longitude : ℚ
  room_type : RoomType
  minimum_nights : ℕ
  number_of_reviews : ℕ
  reviews_per_month : ℚ
  calculated_host_listings_count : ℕ
  availability_365 : ℕ
  number_of_reviews_ltm : ℕ
deriving DecidableEq, Repr

/-- `input_dict` (app.py lines 115-126): a name → value mapping built in
source order, with room type and city already encoded. -/
def input_dict (s : FormState) : List (String × ℚ) :=
  [("latitude", s.latitude),
   ("longitude", s.longitude),
   ("room_type", (room_type_map s.room_type : ℚ)),
   ("minimum_nights", (s.minimum_nights : ℚ)),
   ("number_of_reviews", (s.number_of_reviews : ℚ)),
   ("reviews_per_month", s.reviews_per_month),
   ("calculated_host_listings_count", (s.calculated_host_listings_count : ℚ)),
   ("availability_365", (s.availability_365 : ℚ)),
   ("number_of_reviews_ltm", (s.number_of_reviews_ltm : ℚ)),
   ("city", (city_map s.city : ℚ))]

/-- `columns_order` (app.py lines 128-132). -/
def columns_order : List String :=
  ["latitude", "longitude", "room_type", "minimum_nights", "number_of_reviews",
   "reviews_per_month", "calculated_host_listings_count", "availability_365",
   "number_of_reviews_ltm", "city"]

/-- `pd.DataFrame([input_dict], columns=columns_order)` (app.py line 134)
reads the dict's values out in the order of `columns_order`; the single
resulting row is the feature vector fed to the scaler. -/
def buildFeatures (s : FormState) : List ℚ :=
  columns_order.map (fun k => ((input_dict s).lookup k).getD 0)

/-- C3: `buildFeatures` is a pure function of the form state (equal form
states yield equal vectors) and emits the fields in exactly the order
latitude, longitude, room_type, minimum_nights, number_of_reviews,
reviews_per_month, host_listings_count, availability_365, reviews_ltm,
city. -/
theorem claim3_buildFeatures_pure_and_ordered (s t : FormState) (h : s = t) :
    buildFeatures s = buildFeatures t ∧
    buildFeatures s =
      [s.latitude, s.longitude, (room_type_map s.room_type : ℚ),
       (s.minimum_nights : ℚ), (s.number_of_reviews : ℚ), s.reviews_per_month,
       (s.calculated_host_listings_count : ℚ), (s.availability_365 : ℚ),
       (s.number_of_reviews_ltm : ℚ), (city_map s.city : ℚ)] := by
  subst h
  exact ⟨rfl, rfl⟩

/-- The example form state of §8 of the spec: Paris with its default
coordinates, entire home, and the listed numeric values. -/
def exampleFormState : FormState :=
  ⟨Paris, 48.8566, 2.3522, EntireHome, 1, 50, 0, 1, 200, 0⟩

/-- Witness for C3 at the example form state. -/
theorem claim3_buildFeatures_pure_and_ordered_witness :
    buildFeatures exampleFormState = buildFeatures exampleFormState ∧
    buildFeatures exampleFormState =
      [exampleFormState.latitude, exampleFormState.longitude,
       (room_type_map exampleFormState.room_type : ℚ),
       (exampleFormState.minimum_nights : ℚ),
       (exampleFormState.number_of_reviews : ℚ),
       exampleFormState.reviews_per_month,
       (exampleFormState.calculated_host_listings_count : ℚ),
       (exampleFormState.availability_365 : ℚ),
       (exampleFormState.number_of_reviews_ltm : ℚ),
       (city_map exampleFormState.city : ℚ)] :=
  claim3_buildFeatures_pure_and_ordered exampleFormState exampleFormState rfl

/-- C5: the example form state maps to exactly the feature vector
[48.8566, 2.3522, 0, 1, 50, 0.0, 1, 200, 0, 0], with Paris encoded as
city index 0 because it is the first entry of the fixed table. -/
theorem claim5_example_feature_vector :
    buildFeatures exampleFormState =
      [48.8566, 2.3522, 0, 1, 50, 0.0, 1, 200, 0, 0] ∧
    city_map Paris = 0 ∧ cityList.get? 0 = some Paris := by
  refine ⟨?_, rfl, rfl⟩
  have h : buildFeatures exampleFormState =
      [exampleFormState.latitude, exampleFormState.longitude,
       (room_type_map exampleFormState.room_type : ℚ),
       (exampleFormState.minimum_nights : ℚ),
       (exampleFormState.number_of_reviews : ℚ),
       exampleFormState.reviews_per_month,
       (exampleFormState.calculated_host_listings_count : ℚ),
       (exampleFormState.availability_365 : ℚ),
       (exampleFormState.number_of_reviews_ltm : ℚ),
       (city_map exampleFormState.city : ℚ)] := rfl
  have hc : city_map exampleFormState.city = 0 := rfl
  rw [h, hc]
  norm_num [exampleFormState, room_type_map]

/-- Comparison key of `np.argsort(v)`: ascending by value, ties by
ascending index.  NumPy's default sort on arrays shorter than 16 elements
is insertion sort, which is stable, so on the 10-feature arrays at issue
`np.argsort` sorts the indices exactly by this lexicographic key. -/
def argLe (v : List ℚ) (i j : ℕ) : Prop :=
  v.getD i 0 < v.getD j 0 ∨ (v.getD i 0 = v.getD j 0 ∧ i ≤ j)

instance argLeDec (v : List ℚ) : DecidableRel (argLe v) := fun i j =>
  inferInstanceAs
    (Decidable (v.getD i 0 < v.getD j 0 ∨ (v.getD i 0 = v.getD j 0 ∧ i ≤ j)))

/-- `np.argsort(importances)` (app.py line 149). -/
def np_argsort (v : List ℚ) : List ℕ :=
  List.insertionSort (argLe v) (List.range v.length)

/-- `np.argsort(importances)[::-1][:5]` (app.py line 149): reverse the
ascending argsort and keep the first five indices. -/
def top_idx (v : List ℚ) : List ℕ :=
  ((np_argsort v).reverse).take 5

/-- The claim's ordering: descending by weight, ties broken by ascending
original index. -/
def specDescAscTies (v : List ℚ) (i j : ℕ) : Prop :=
  v.getD j 0 < v.getD i 0 ∨ (v.getD i 0 = v.getD j 0 ∧ i ≤ j)

instance specDescAscTiesDec (v : List ℚ) : DecidableRel (specDescAscTies v) :=
  fun i j =>
  inferInstanceAs
    (Decidable (v.getD j 0 < v.getD i 0 ∨ (v.getD i 0 = v.getD j 0 ∧ i ≤ j)))

/-- Top five indices under the claim's ordering (ties ascending). -/
def spec_top5_asc_ties (v : List ℚ) : List ℕ :=
  (List.insertionSort (specDescAscTies v) (List.range v.length)).take 5

/-- The ordering the code actually realizes: descending by weight, ties
broken by descending original index. -/
def specDescDescTies (v : List ℚ) (i j : ℕ) : Prop :=
  v.getD j 0 < v.getD i 0 ∨ (v.getD i 0 = v.getD j 0 ∧ j ≤ i)

instance specDescDescTiesDec (v : List ℚ) : DecidableRel (specDescDescTies v) :=
  fun i j =>
  inferInstanceAs
    (Decidable (v.getD j 0 < v.getD i 0 ∨ (v.getD i 0 = v.getD j 0 ∧ j ≤ i)))

/-- Top five indices ordered descending with ties by descending index. -/
def spec_top5_desc_ties (v : List ℚ) : List ℕ :=
  (List.insertionSort (specDescDescTies v) (List.range v.length)).take 5

instance argLe_isTotal (v : List ℚ) : IsTotal ℕ (argLe v) := by
  constructor
  intro i j
  rcases lt_trichotomy (v.getD i 0) (v.getD j 0) with h | h | h
  · exact Or.inl (Or.inl h)
  · rcases Nat.le_total i j with hn | hn
    · exact Or.inl (Or.inr ⟨h, hn⟩)
    · exact Or.inr (Or.inr ⟨h.symm, hn⟩)
  · exact Or.inr (Or.inl h)

instance argLe_isTrans (v : List ℚ) : IsTrans ℕ (argLe v) := by
  constructor
  intro a b c hab hbc
  rcases hab with h1 | ⟨e1, n1⟩
  · rcases hbc with h2 | ⟨e2, _⟩
    · exact Or.inl (h1.trans h2)
    · exact Or.inl (e2 ▸ h1)
  · rcases hbc with h2 | ⟨e2, n2⟩
    · exact Or.inl (e1 ▸ h2)
    · exact Or.inr ⟨e1.trans e2, n1.trans n2⟩

instance specDescDescTies_isTotal (v : List ℚ) :
    IsTotal ℕ (specDescDescTies v) := by
  constructor
  intro i j
  rcases lt_trichotomy (v.getD i 0) (v.getD j 0) with h | h | h
  · exact Or.inr (Or.inl h)
  · rcases Nat.le_total i j with hn | hn
    · exact Or.inr (Or.inr ⟨h.symm, hn⟩)
    · exact Or.inl (Or.inr ⟨h, hn⟩)
  · exact Or.inl (Or.inl h)

instance specDescDescTies_isTrans (v : List ℚ) :
    IsTrans ℕ (specDescDescTies v) := by
  constructor
  intro a b c hab hbc
  rcases hab with h1 | ⟨e1, n1⟩
  · rcases hbc with h2 | ⟨e2, _⟩
    · exact Or.inl (h2.trans h1)
    · exact Or.inl (e2 ▸ h1)
  · rcases hbc with h2 | ⟨e2, n2⟩
    · exact Or.inl (e1 ▸ h2)
    · exact Or.inr ⟨e1.trans e2, n2.trans n1⟩

instance specDescDescTies_isAntisymm (v : List ℚ) :
    IsAntisymm ℕ (specDescDescTies v) := by
  constructor
  intro a b hab hba
  rcases hab with h1 | ⟨e1, n1⟩
  · rcases hba with h2 | ⟨e2, _⟩
    · exact absurd (h1.trans h2) (lt_irrefl _)
    · exact absurd h1 (e2 ▸ lt_irrefl _)
  · rcases hba with h2 | ⟨_, n2⟩
    · exact absurd h2 (e1 ▸ lt_irrefl _)
    · exact Nat.le_antisymm n2 n1

/-- The importance array named by the claim:
[0.1, 0.5, 0.05, 0.2, 0.05, 0.3, 0.0, 0.0, 0.0, 0.0]. -/
def exImportances : List ℚ :=
  [0.1, 0.5, 0.05, 0.2, 0.05, 0.3, 0.0, 0.0, 0.0, 0.0]

/-- C4 counterexample: on the claim's own array the code's selection
(`top_idx`) differs from descending order with ascending-index
tie-break — the two 0.05 ties come out as index 4 before index 2, and the
reversed argsort lists the four zero weights in descending index order. -/
theorem claim4_counterexample :
    top_idx exImportances ≠ spec_top5_asc_ties exImportances ∧
    top_idx exImportances = [1, 5, 3, 0, 4] ∧
    spec_top5_asc_ties exImportances = [1, 5, 3, 0, 2] ∧
    (np_argsort exImportances).reverse = [1, 5, 3, 0, 4, 2, 9, 8, 7, 6] := by
  refine ⟨?_, ?_, ?_, ?_⟩ <;> with_unfolding_all decide

/-- C4 amended: the five indices shown are the top five by importance in
descending order, but ties between equal weights are broken by
DESCENDING original feature index, because the code reverses a stable
ascending argsort. -/
theorem claim4_amended_desc_ties (v : List ℚ) :
    top_idx v = spec_top5_desc_ties v := by
  unfold top_idx spec_top5_desc_ties
  congr 1
  apply List.eq_of_perm_of_sorted (r := specDescDescTies v)
  · exact ((List.reverse_perm _).trans
      (List.perm_insertionSort _ _)).trans
      (List.perm_insertionSort _ _).symm
  · have h1 : List.Sorted (argLe v) (np_argsort v) :=
      List.sorted_insertionSort _ _
    have h2 : List.Pairwise (fun a b => specDescDescTies v b a) (np_argsort v) := by
      refine h1.imp ?_
      intro a b hab
      rcases hab with h | ⟨he, hn⟩
      · exact Or.inl h
      · exact Or.inr ⟨he.symm, hn⟩
    exact List.pairwise_reverse.mpr h2
  · exact List.sorted_insertionSort _ _

/-- Modelled from the spec: the external scaler artifact (§4.3, §6), an
opaque pre-fitted transform `scale(vector) -> vector` with the "same
shape in and out", remembering the feature arity it was fitted with so a
shape/order mismatch can be detected at transform time (§7). -/
structure ScalerArtifact where
  n_features : ℕ
  scale : List ℚ → List ℚ
  scale_length : ∀ w, (scale w).length = w.length

/-- Modelled from the spec: the external model artifact (§4.3, §6), an
opaque pre-trained regressor `infer(scaledVector) -> price` together with
`importances()` weights aligned with the unscaled feature names, and the
feature arity it was trained with. -/
structure ModelArtifact where
  n_features : ℕ
  infer : List ℚ → ℚ
  feature_importances : List ℚ

/-- `load_model` (app.py lines 28-34), modelled from the spec: each
`joblib.load` raises when its artifact file is missing or corrupt
(modelled as `none`), and the exception propagates; otherwise both
handles are returned. -/
def load_model (mf : Option ModelArtifact) (sf : Option ScalerArtifact) :
    Except String (ModelArtifact × ScalerArtifact) :=
  match mf with
  | none => Except.error "joblib.load: model artifact missing or corrupt"
  | some m =>
    match sf with
    | none => Except.error "joblib.load: scaler artifact missing or corrupt"
    | some sc => Except.ok (m, sc)

/-- `scaler.transform(input_df)` (app.py line 137), modelled from the
spec: fails when the vector's shape disagrees with what the scaler was
fitted with, otherwise applies the opaque transform. -/
def scalerTransform (sc : ScalerArtifact) (v : List ℚ) : Except String (List ℚ) :=
  if v.length = sc.n_features then Except.ok (sc.scale v)
  else Except.error "scaler.transform: feature shape mismatch"

/-- `model.predict(X_scaled_df)[0]` (app.py line 140), modelled from the
spec: fails when the vector's shape disagrees with what the model was
trained with, otherwise produces the price. -/
def modelPredict (m : ModelArtifact) (v : List ℚ) : Except String ℚ :=
  if v.length = m.n_features then Except.ok (m.infer v)
  else Except.error "model.predict: feature shape mismatch"

/-- The load → assemble → scale → predict pipeline of one render cycle
(app.py lines 28-34 and 134-140); every failure propagates. -/
def renderPredict (mf : Option ModelArtifact) (sf : Option ScalerArtifact)
    (s : FormState) : Except String ℚ :=
  match load_model mf sf with
  | Except.error e => Except.error e
  | Except.ok (m, sc) =>
    match scalerTransform sc (buildFeatures s) with
    | Except.error e => Except.error e
    | Except.ok scaled => modelPredict m scaled

theorem buildFeatures_length (s : FormState) : (buildFeatures s).length = 10 :=
  rfl

/-- C8: if the model or scaler artifact is missing or corrupt, or either
artifact's feature arity disagrees with the 10-feature vector, the render
cycle's prediction is a propagated error and never a silently substituted
price. -/
theorem claim8_artifact_failures_propagate (mf : Option ModelArtifact)
    (sf : Option ScalerArtifact) (s : FormState)
    (h : mf = none ∨ sf = none ∨
      (∃ sc, sf = some sc ∧ sc.n_features ≠ 10) ∨
      (∃ m, mf = some m ∧ m.n_features ≠ 10)) :
    (∃ e, renderPredict mf sf s = Except.error e) ∧
    ∀ p, renderPredict mf sf s ≠ Except.ok p := by
  have hmain : ∃ e, renderPredict mf sf s = Except.error e := by
    rcases mf with _ | m
    · exact ⟨_, rfl⟩
    rcases sf with _ | sc
    · exact ⟨_, rfl⟩
    rcases h with h | h | ⟨sc2, hsc, hn⟩ | ⟨m2, hm, hn⟩
    · exact absurd h (by simp)
    · exact absurd h (by simp)
    · have hsc2 : sc2 = sc := (Option.some_injective _ hsc).symm
      subst hsc2
      have hst : scalerTransform sc2 (buildFeatures s) =
          Except.error "scaler.transform: feature shape mismatch" := by
        unfold scalerTransform
        rw [if_neg]
        intro hh
        exact hn ((buildFeatures_length s) ▸ hh).symm
      refine ⟨"scaler.transform: feature shape mismatch", ?_⟩
      show (match scalerTransform sc2 (buildFeatures s) with
        | Except.error e => Except.error e
        | Except.ok scaled => modelPredict m scaled) = _
      rw [hst]
    · have hm2 : m2 = m := (Option.some_injective _ hm).symm
      subst hm2
      by_cases hsceq : sc.n_features = 10
      · have hst : scalerTransform sc (buildFeatures s) =
            Except.ok (sc.scale (buildFeatures s)) := by
          unfold scalerTransform
          rw [if_pos]
          rw [buildFeatures_length, hsceq]
        have hlen : (sc.scale (buildFeatures s)).length = 10 := by
          rw [sc.scale_length, buildFeatures_length]
        have hmp : modelPredict m2 (sc.scale (buildFeatures s)) =
            Except.error "model.predict: feature shape mismatch" := by
          unfold modelPredict
          rw [if_neg]
          intro hh
          exact hn (hlen ▸ hh).symm
        refine ⟨"model.predict: feature shape mismatch", ?_⟩
        show (match scalerTransform sc (buildFeatures s) with
          | Except.error e => Except.error e
          | Except.ok scaled => modelPredict m2 scaled) = _
        rw [hst]
        exact hmp
      · have hst : scalerTransform sc (buildFeatures s) =
            Except.error "scaler.transform: feature shape mismatch" := by
          unfold scalerTransform
          rw [if_neg]
          intro hh
          exact hsceq ((buildFeatures_length s) ▸ hh).symm
        refine ⟨"scaler.transform: feature shape mismatch", ?_⟩
        show (match scalerTransform sc (buildFeatures s) with
          | Except.error e => Except.error e
          | Except.ok scaled => modelPredict m2 scaled) = _
        rw [hst]
  refine ⟨hmain, ?_⟩
  rcases hmain with ⟨e, he⟩
  intro p hp
  rw [he] at hp
  exact Except.noConfusion hp

/-- Witness for C8 with both artifacts missing. -/
theorem claim8_artifact_failures_propagate_witness :
    (∃ e, renderPredict none none exampleFormState = Except.error e) ∧
    ∀ p, renderPredict none none exampleFormState ≠ Except.ok p :=
  claim8_artifact_failures_propagate none none exampleFormState (Or.inl rfl)

/-- The observable outcome of one render cycle: the assembled feature
vector, the prediction outcome, the optional top-5 importance chart
data, and the form state as it stands at the end of the cycle. -/
structure RenderOutput where
  features : List ℚ
  price : Except String ℚ
  importance_chart : Option (List (ℕ × ℚ))
  finalForm : FormState

/-- The render tail (app.py lines 110-154): assemble features, scale and
predict, and, only when the checkbox is ticked, additionally read the
model's importances to build the top-5 chart data (`feat_names[top_idx]`,
`importances[top_idx]`); the branch reads and renders but writes nothing
back to the form state. -/
def fullRender (toggled : Bool) (m : ModelArtifact) (sc : ScalerArtifact)
    (s : FormState) : RenderOutput :=
  let v := buildFeatures s
  let price := match scalerTransform sc v with
    | Except.error e => Except.error e
    | Except.ok scaled => modelPredict m scaled
  let chart := if toggled then
      some ((top_idx m.feature_importances).map
        (fun i => (i, m.feature_importances.getD i 0)))
    else none
  ⟨v, price, chart, s⟩

/-- C10: two render cycles identical except for the importance-display
toggle produce the same feature vector and the same prediction outcome,
and the toggle's branch leaves the form state untouched. -/
theorem claim10_toggle_noninterference (t1 t2 : Bool) (m : ModelArtifact)
    (sc : ScalerArtifact) (s : FormState) :
    (fullRender t1 m sc s).features = (fullRender t2 m sc s).features ∧
    (fullRender t1 m sc s).price = (fullRender t2 m sc s).price ∧
    (fullRender t1 m sc s).finalForm = s ∧
    (fullRender t2 m sc s).finalForm = s :=
  ⟨rfl, rfl, rfl, rfl⟩

/-- C7: every city's categorical encoding is its 0-based position in the
fixed ordered city list, and the room-type encoding maps the three labels
to 0, 1, 2 in order. -/
theorem claim7_stable_encodings :
    (∀ i : Fin cityList.length, city_map (cityList.get i) = i.val) ∧
    room_type_map EntireHome = 0 ∧ room_type_map PrivateRoom = 1 ∧
    room_type_map SharedRoom = 2 := by
  refine ⟨?_, rfl, rfl, rfl⟩
  decide
